import Mathlib

/-!
Shallow embedding of the chatPDF backend (src/backend/main.py) and proofs of
the specification claims about it.

The embedding models:
  * the module-level configuration constants `UPLOAD_DIRECTORY` / `OUTPUT_DIRECTORY`;
  * posix `os.path.join` (two-argument form) and `os.path.basename`;
  * the in-memory document store `documents_db` as an insertion-ordered
    association list, with Python dict assignment (`dictSet`) and membership
    lookup (`dictGet`) semantics;
  * `process_document_with_unstructured`, `query_document_with_gemini`,
    `upload_document`, `ask_question` and `list_documents`, with the external
    effects (local file write, pipeline run, output-artifact filesystem,
    generative-model call) supplied as explicit oracle arguments whose
    outcomes the real collaborators would produce.
-/

namespace ChatPDF

/-- Module constant from main.py line 29: `UPLOAD_DIRECTORY = "./uploaded_documents"`. -/
def UPLOAD_DIRECTORY : String := "./uploaded_documents"

/-- Module constant from main.py line 30: `OUTPUT_DIRECTORY = "./output"`. -/
def OUTPUT_DIRECTORY : String := "./output"

/-- Whether a string starts with the posix separator, as `b.startswith(sep)` does. -/
def startsWithSlash (s : String) : Bool :=
  match s.data with
  | [] => false
  | c :: _ => c = '/'

/-- Whether a string ends with the posix separator, as `path.endswith(sep)` does. -/
def endsWithSlash (s : String) : Bool :=
  match s.data.getLast? with
  | none => false
  | some c => c = '/'

/-- Posix `os.path.join(a, b)` for two arguments: absolute second component
replaces the first; otherwise the separator is inserted unless the first part
is empty or already ends with the separator. -/
def os_path_join (a b : String) : String :=
  if startsWithSlash b then b
  else if a = "" ∨ endsWithSlash a then a ++ b
  else a ++ "/" ++ b

/-- Characters after the last separator, the core of posix `os.path.basename`. -/
def basenameChars (cs : List Char) : List Char :=
  cs.foldl (fun acc c => if c = '/' then [] else acc ++ [c]) []

/-- Posix `os.path.basename(p)`: everything after the last `/`. -/
def os_path_basename (s : String) : String :=
  String.mk (basenameChars s.data)

/-- A value of the in-memory store `documents_db[file_id]`:
`{"file_name": ..., "file_path": ..., "content": ...}` (main.py lines 146-150). -/
structure DocRecord where
  file_name : String
  file_path : String
  content : String
deriving DecidableEq, Repr

/-- The store `documents_db` (main.py line 55): a Python dict, modelled as an
association list in insertion order (Python dicts preserve insertion order). -/
abbrev DocumentsDb := List (String × DocRecord)

/-- Python dict assignment `db[k] = v`: replace the value in place if the key
exists, otherwise append the new binding at the end. -/
def dictSet (db : DocumentsDb) (k : String) (v : DocRecord) : DocumentsDb :=
  match db with
  | [] => [(k, v)]
  | (k', v') :: rest =>
      if k' = k then (k, v) :: rest else (k', v') :: dictSet rest k v

/-- Python dict lookup `db[k]` / membership `k in db`. -/
def dictGet (db : DocumentsDb) (k : String) : Option DocRecord :=
  match db with
  | [] => none
  | (k', v) :: rest => if k' = k then some v else dictGet rest k

/-- The keys of the store, in iteration order. -/
def dictKeys (db : DocumentsDb) : List String :=
  db.map Prod.fst

/-- Request body of `/ask` (main.py lines 57-59). -/
structure DocumentQuery where
  document_id : String
  query : String

/-- Success body of `/upload` (main.py lines 152-155). -/
structure UploadResponse where
  message : String
  document_id : String
deriving DecidableEq, Repr

/-- Success body of `/ask` (main.py lines 169-173). -/
structure AskResponse where
  query : String
  response : String
  document : String
deriving DecidableEq, Repr

/-- Failure outcomes of `/ask`: HTTPException 404 "Document not found"
(main.py line 163) or HTTPException 500 with a detail string (main.py line 175). -/
inductive AskError where
  | notFound
  | serverError (detail : String)
deriving DecidableEq, Repr

/-- One element of the `/documents` response array (main.py lines 180-183). -/
structure DocumentListing where
  document_id : String
  file_name : String
deriving DecidableEq, Repr

/-- Path of the expected partitioning output artifact (main.py line 84):
`os.path.join(OUTPUT_DIRECTORY, os.path.basename(file_path)) + '.json'`. -/
def output_file_path (file_path : String) : String :=
  os_path_join OUTPUT_DIRECTORY (os_path_basename file_path) ++ ".json"

/-- `process_document_with_unstructured` (main.py lines 61-90).
`pipelineRun` is the outcome of `Pipeline.from_configs(...).run()`;
`fs` maps a path to `none` when `os.path.exists` is false, and otherwise to
the outcome of reading the file.  A raised exception from either step is
wrapped as `Error processing document: ...`; a missing artifact yields `""`. -/
def process_document_with_unstructured (fs : String → Option (Except String String))
    (pipelineRun : Except String Unit) (file_path : String) : Except String String :=
  match pipelineRun with
  | .error e => .error ("Error processing document: " ++ e)
  | .ok _ =>
    match fs (output_file_path file_path) with
    | some (.ok s) => .ok s
    | some (.error e) => .error ("Error processing document: " ++ e)
    | none => .ok ""

/-- The prompt built by `query_document_with_gemini` (main.py lines 97-106):
the f-string template with `document_content` and `query` interpolated. -/
def gemini_prompt (document_content q : String) : String :=
  "\n        Based on the following document content, please answer the question.\n        \n        Document content:\n        "
    ++ document_content
    ++ "\n        \n        Question: "
    ++ q
    ++ "\n        \n        Please provide a concise and accurate answer based only on the information provided in the document.\n        "

/-- `query_document_with_gemini` (main.py lines 92-111).  `gemini` is the
external `model.generate_content(...).text` call.  Returns the wrapped result
together with the list of prompts actually sent to the model. -/
def query_document_with_gemini (gemini : String → Except String String)
    (document_content q : String) : Except String String × List String :=
  let prompt := gemini_prompt document_content q
  match gemini prompt with
  | .ok t => (.ok t, [prompt])
  | .error e => (.error ("Error processing query with Gemini: " ++ e), [prompt])

/-- `upload_document` (main.py lines 134-157).  `file_id` is the value of
`str(uuid.uuid4())`, supplied as an oracle; `writeResult` is the outcome of
`await file.read()` plus the local write; `pipelineRun` and `fs` are passed to
`process_document_with_unstructured`.  Any exception yields an HTTP 500 with
the exception text and no store insertion; on success the record is inserted
under `file_id` and `{message, document_id}` is returned. -/
def upload_document (db : DocumentsDb) (file_id filename : String)
    (writeResult : Except String Unit) (pipelineRun : Except String Unit)
    (fs : String → Option (Except String String)) :
    Except String UploadResponse × DocumentsDb :=
  let file_path := os_path_join UPLOAD_DIRECTORY (file_id ++ "_" ++ filename)
  match writeResult with
  | .error e => (.error e, db)
  | .ok _ =>
    match process_document_with_unstructured fs pipelineRun file_path with
    | .error e => (.error e, db)
    | .ok processed_content =>
      (.ok { message := "Document uploaded and processed successfully", document_id := file_id },
       dictSet db file_id
         { file_name := filename, file_path := file_path, content := processed_content })

/-- `ask_question` (main.py lines 159-175).  Returns the endpoint outcome, the
store after the call, and the list of prompts sent to the generative model. -/
def ask_question (gemini : String → Except String String) (db : DocumentsDb)
    (q : DocumentQuery) :
    Except AskError AskResponse × DocumentsDb × List String :=
  match dictGet db q.document_id with
  | none => (.error .notFound, db, [])
  | some record =>
    match query_document_with_gemini gemini record.content q.query with
    | (.ok r, calls) =>
        (.ok { query := q.query, response := r, document := record.file_name }, db, calls)
    | (.error e, calls) => (.error (.serverError e), db, calls)

/-- `list_documents` (main.py lines 177-183): one `{document_id, file_name}`
entry per store record, in the dict's iteration order. -/
def list_documents (db : DocumentsDb) : List DocumentListing :=
  db.map fun p => { document_id := p.1, file_name := p.2.file_name }

/-- The `/documents` endpoint viewed as a state transformer: it only reads the
store. -/
def list_documents_endpoint (db : DocumentsDb) : List DocumentListing × DocumentsDb :=
  (list_documents db, db)

/-! Helper lemmas about the store operations. -/

theorem dictSet_nil (k : String) (v : DocRecord) : dictSet [] k v = [(k, v)] := rfl

theorem dictSet_cons (p : String × DocRecord) (rest : DocumentsDb) (k : String)
    (v : DocRecord) :
    dictSet (p :: rest) k v
      = if p.1 = k then (k, v) :: rest else p :: dictSet rest k v := rfl

theorem dictGet_nil (k : String) : dictGet [] k = none := rfl

theorem dictGet_cons (p : String × DocRecord) (rest : DocumentsDb) (k : String) :
    dictGet (p :: rest) k = if p.1 = k then some p.2 else dictGet rest k := rfl

theorem dictKeys_nil : dictKeys [] = [] := rfl

theorem dictKeys_cons (p : String × DocRecord) (rest : DocumentsDb) :
    dictKeys (p :: rest) = p.1 :: dictKeys rest := rfl

theorem dictGet_dictSet_self (db : DocumentsDb) (k : String) (v : DocRecord) :
    dictGet (dictSet db k v) k = some v := by
  induction db with
  | nil => simp [dictSet_nil, dictGet_cons]
  | cons p rest ih =>
    by_cases h : p.1 = k
    · simp [dictSet_cons, dictGet_cons, h]
    · simp [dictSet_cons, dictGet_cons, h, ih]

theorem dictGet_dictSet_ne (db : DocumentsDb) (k k' : String) (v : DocRecord)
    (h : k' ≠ k) : dictGet (dictSet db k v) k' = dictGet db k' := by
  induction db with
  | nil => simp [dictSet_nil, dictGet_cons, dictGet_nil, Ne.symm h]
  | cons p rest ih =>
    by_cases hp : p.1 = k
    · simp [dictSet_cons, dictGet_cons, hp, Ne.symm h]
    · simp [dictSet_cons, dictGet_cons, hp, ih]

theorem dictSet_fresh (db : DocumentsDb) (k : String) (v : DocRecord)
    (h : dictGet db k = none) : dictSet db k v = db ++ [(k, v)] := by
  induction db with
  | nil => simp [dictSet_nil]
  | cons p rest ih =>
    rw [dictGet_cons] at h
    by_cases hp : p.1 = k
    · simp [hp] at h
    · simp [hp] at h
      simp [dictSet_cons, hp, ih h]

theorem mem_dictKeys_dictSet (db : DocumentsDb) (k k' : String) (v : DocRecord)
    (h : k' ∈ dictKeys (dictSet db k v)) : k' ∈ dictKeys db ∨ k' = k := by
  induction db with
  | nil =>
    rw [dictSet_nil, dictKeys_cons] at h
    simp [dictKeys_nil] at h
    right
    exact h
  | cons p rest ih =>
    rw [dictSet_cons] at h
    by_cases hp : p.1 = k
    · rw [if_pos hp, dictKeys_cons] at h
      simp at h
      rcases h with h | h
      · right; exact h
      · left
        rw [dictKeys_cons]
        exact List.mem_cons_of_mem _ h
    · rw [if_neg hp, dictKeys_cons] at h
      simp at h
      rcases h with h | h
      · left
        rw [dictKeys_cons, h]
        exact List.mem_cons_self _ _
      · rcases ih h with h2 | h2
        · left
          rw [dictKeys_cons]
          exact List.mem_cons_of_mem _ h2
        · right; exact h2

theorem dictKeys_dictSet_nodup (db : DocumentsDb) (k : String) (v : DocRecord)
    (h : (dictKeys db).Nodup) : (dictKeys (dictSet db k v)).Nodup := by
  induction db with
  | nil => simp [dictSet_nil, dictKeys_cons, dictKeys_nil]
  | cons p rest ih =>
    rw [dictKeys_cons, List.nodup_cons] at h
    rw [dictSet_cons]
    by_cases hp : p.1 = k
    · rw [if_pos hp, dictKeys_cons, List.nodup_cons]
      exact ⟨by rw [← hp]; exact h.1, h.2⟩
    · rw [if_neg hp, dictKeys_cons, List.nodup_cons]
      refine ⟨?_, ih h.2⟩
      intro hmem
      rcases mem_dictKeys_dictSet rest k p.1 v hmem with h2 | h2
      · exact h.1 h2
      · exact hp h2

theorem dictGet_eq_none_iff (db : DocumentsDb) (k : String) :
    dictGet db k = none ↔ k ∉ dictKeys db := by
  induction db with
  | nil => simp [dictGet_nil, dictKeys_nil]
  | cons p rest ih =>
    rw [dictGet_cons, dictKeys_cons]
    by_cases hp : p.1 = k
    · simp [hp]
    · simp [hp, ih, Ne.symm hp]

theorem dictGet_mem (db : DocumentsDb) (k : String) (v : DocRecord)
    (h : dictGet db k = some v) : (k, v) ∈ db := by
  induction db with
  | nil => simp [dictGet_nil] at h
  | cons p rest ih =>
    rw [dictGet_cons] at h
    by_cases hp : p.1 = k
    · rw [if_pos hp] at h
      simp at h
      have hp2 : p = (k, v) := by
        obtain ⟨a, b⟩ := p
        simp at hp h ⊢
        exact ⟨hp, h⟩
      rw [hp2]
      exact List.mem_cons_self _ _
    · rw [if_neg hp] at h
      exact List.mem_cons_of_mem _ (ih h)

theorem list_documents_ids (db : DocumentsDb) :
    (list_documents db).map DocumentListing.document_id = dictKeys db := by
  induction db with
  | nil => rfl
  | cons p rest ih =>
    rw [dictKeys_cons, ← ih]
    rfl

/-! Helper lemmas about the path functions. -/

theorem os_path_join_sep (a b : String) (ha : a ≠ "") (ha2 : endsWithSlash a = false)
    (hb : startsWithSlash b = false) : os_path_join a b = a ++ "/" ++ b := by
  simp [os_path_join, ha, ha2, hb]

theorem basenameChars_no_slash (ys : List Char) (acc : List Char)
    (h : '/' ∉ ys) : ys.foldl (fun acc c => if c = '/' then [] else acc ++ [c]) acc
      = acc ++ ys := by
  induction ys generalizing acc with
  | nil => simp
  | cons c rest ih =>
    simp at h
    rw [List.foldl_cons, if_neg (by exact fun h2 => h.1 h2.symm), ih (acc ++ [c]) h.2]
    simp

theorem basenameChars_append_slash (xs ys : List Char) :
    basenameChars (xs ++ '/' :: ys) = basenameChars ys := by
  have h1 : xs ++ '/' :: ys = (xs ++ ['/']) ++ ys := by simp
  rw [basenameChars, h1, List.foldl_append, List.foldl_append]
  simp [basenameChars]

theorem os_path_basename_after_dir (dir rest : String)
    (h : '/' ∉ rest.data) : os_path_basename (dir ++ "/" ++ rest) = rest := by
  rw [os_path_basename, String.data_append, String.data_append]
  have hsep : ("/" : String).data = ['/'] := rfl
  rw [hsep]
  have h2 : dir.data ++ ['/'] ++ rest.data = dir.data ++ '/' :: rest.data := by simp
  rw [h2, basenameChars_append_slash, basenameChars, basenameChars_no_slash rest.data [] h]
  simp

theorem data_append3 (a b c : String) :
    (a ++ b ++ c).data = a.data ++ b.data ++ c.data := by
  rw [String.data_append, String.data_append]

/-! Helper lemmas analysing `upload_document`. -/

theorem upload_document_error (db : DocumentsDb) (file_id filename : String)
    (w run : Except String Unit) (fs : String → Option (Except String String))
    (e : String)
    (h : (upload_document db file_id filename w run fs).1 = .error e) :
    (upload_document db file_id filename w run fs).2 = db := by
  cases w with
  | error ew => rfl
  | ok u =>
    cases u
    rcases hp : process_document_with_unstructured fs run
        (os_path_join UPLOAD_DIRECTORY (file_id ++ "_" ++ filename)) with ep | c
    · simp [upload_document, hp]
    · simp [upload_document, hp] at h

theorem upload_document_ok (db : DocumentsDb) (file_id filename : String)
    (w run : Except String Unit) (fs : String → Option (Except String String))
    (resp : UploadResponse)
    (h : (upload_document db file_id filename w run fs).1 = .ok resp) :
    resp = { message := "Document uploaded and processed successfully",
             document_id := file_id }
      ∧ ∃ c, (upload_document db file_id filename w run fs).2
          = dictSet db file_id
              { file_name := filename,
                file_path := os_path_join UPLOAD_DIRECTORY (file_id ++ "_" ++ filename),
                content := c } := by
  cases w with
  | error ew => simp [upload_document] at h
  | ok u =>
    cases u
    rcases hp : process_document_with_unstructured fs run
        (os_path_join UPLOAD_DIRECTORY (file_id ++ "_" ++ filename)) with ep | c
    · simp [upload_document, hp] at h
    · simp [upload_document, hp] at h ⊢
      exact ⟨h.symm, c, rfl⟩

theorem upload_document_db_cases (db : DocumentsDb) (file_id filename : String)
    (w run : Except String Unit) (fs : String → Option (Except String String)) :
    (upload_document db file_id filename w run fs).2 = db
      ∨ ∃ c, (upload_document db file_id filename w run fs).2
          = dictSet db file_id
              { file_name := filename,
                file_path := os_path_join UPLOAD_DIRECTORY (file_id ++ "_" ++ filename),
                content := c } := by
  rcases h : (upload_document db file_id filename w run fs).1 with e | resp
  · exact Or.inl (upload_document_error db file_id filename w run fs e h)
  · exact Or.inr (upload_document_ok db file_id filename w run fs resp h).2

/-! Claim theorems. -/

/-- C1, counterexample: on an upload where the partitioning invocation completes
without raising but the expected output artifact is absent (the filesystem
oracle maps every path to `none`), ingestion does not fail as the claim states:
it succeeds and a record (with empty content) is inserted into the store. -/
theorem C1_counterexample :
    (upload_document [] "id0" "doc.pdf" (.ok ()) (.ok ()) (fun _ => none)).1
        = .ok { message := "Document uploaded and processed successfully",
                document_id := "id0" }
      ∧ (upload_document [] "id0" "doc.pdf" (.ok ()) (.ok ()) (fun _ => none)).2
        = [("id0", { file_name := "doc.pdf",
                     file_path := "./uploaded_documents/id0_doc.pdf",
                     content := "" })] :=
  ⟨rfl, rfl⟩

/-- C1, amended: if the partitioning invocation itself fails (raises), ingestion
fails as a whole — the caller receives a failure whose message wraps the
underlying error descriptively, and no record is inserted into the store.
(When the invocation completes but the artifact is merely absent, ingestion
instead succeeds with empty content.) -/
theorem C1_pipeline_failure_fails_ingestion (db : DocumentsDb)
    (file_id filename e : String) (fs : String → Option (Except String String)) :
    upload_document db file_id filename (.ok ()) (.error e) fs
      = (.error ("Error processing document: " ++ e), db) := by
  simp [upload_document, process_document_with_unstructured]

/-- C2: if the queried document_id is not a key of the store, `/ask` yields the
"not found" condition, leaves the store unchanged, and sends no prompt at all
to the generative model (the result is this for every model oracle `gemini`,
and the list of prompts actually sent is empty). -/
theorem C2_unknown_id_not_found (gemini : String → Except String String)
    (db : DocumentsDb) (q : DocumentQuery)
    (h : dictGet db q.document_id = none) :
    ask_question gemini db q = (.error .notFound, db, []) := by
  simp [ask_question, h]

theorem C2_witness :
    dictGet [] "missing" = none
      ∧ ask_question (fun _ => .ok "answer") [] { document_id := "missing", query := "q" }
        = (.error .notFound, [], []) :=
  ⟨rfl, C2_unknown_id_not_found (fun _ => .ok "answer") []
      { document_id := "missing", query := "q" } rfl⟩

/-- C3: ingestion is atomic with respect to the store — whenever `/upload`
fails (at the local write, at the partitioning invocation, or at the artifact
read, all of which surface as an error result), the store is unchanged, and
the generated id (fresh for this upload) is retrievable neither by direct
lookup, nor via `/ask` (which yields "not found"), nor via `/documents`. -/
theorem C3_failed_upload_leaves_store_unchanged (gemini : String → Except String String)
    (db : DocumentsDb) (file_id filename question e : String)
    (w run : Except String Unit) (fs : String → Option (Except String String))
    (herr : (upload_document db file_id filename w run fs).1 = .error e)
    (hfresh : dictGet db file_id = none) :
    (upload_document db file_id filename w run fs).2 = db
      ∧ dictGet (upload_document db file_id filename w run fs).2 file_id = none
      ∧ (ask_question gemini (upload_document db file_id filename w run fs).2
          { document_id := file_id, query := question }).1 = .error .notFound
      ∧ file_id ∉ (list_documents (upload_document db file_id filename w run fs).2).map
          DocumentListing.document_id := by
  have hdb := upload_document_error db file_id filename w run fs e herr
  refine ⟨hdb, ?_, ?_, ?_⟩
  · rw [hdb]
    exact hfresh
  · rw [hdb]
    simp [ask_question, hfresh]
  · rw [hdb, list_documents_ids]
    exact (dictGet_eq_none_iff db file_id).1 hfresh

theorem C3_witness :
    (upload_document [] "w1" "f.pdf" (.error "disk full") (.ok ()) (fun _ => none)).1
        = .error "disk full"
      ∧ dictGet [] "w1" = none
      ∧ ((upload_document [] "w1" "f.pdf" (.error "disk full") (.ok ()) (fun _ => none)).2 = []
          ∧ dictGet (upload_document [] "w1" "f.pdf" (.error "disk full") (.ok ())
              (fun _ => none)).2 "w1" = none
          ∧ (ask_question (fun _ => .ok "a")
              (upload_document [] "w1" "f.pdf" (.error "disk full") (.ok ())
                (fun _ => none)).2
              { document_id := "w1", query := "q" }).1 = .error .notFound
          ∧ "w1" ∉ (list_documents
              (upload_document [] "w1" "f.pdf" (.error "disk full") (.ok ())
                (fun _ => none)).2).map DocumentListing.document_id) :=
  ⟨rfl, rfl,
    C3_failed_upload_leaves_store_unchanged (fun _ => .ok "a") [] "w1" "f.pdf" "q"
      "disk full" (.error "disk full") (.ok ()) (fun _ => none) rfl rfl⟩

/-- C4: for every document content string and every question string, the prompt
built for the generative model contains both verbatim as substrings — the full
content is embedded without truncation, whatever its length. -/
theorem C4_prompt_contains_content_and_question (content question : String) :
    (∃ pre post, gemini_prompt content question = pre ++ content ++ post)
      ∧ (∃ pre post, gemini_prompt content question = pre ++ question ++ post) := by
  constructor
  · refine ⟨"\n        Based on the following document content, please answer the question.\n        \n        Document content:\n        ",
      "\n        \n        Question: " ++ question
        ++ "\n        \n        Please provide a concise and accurate answer based only on the information provided in the document.\n        ",
      ?_⟩
    apply String.ext
    simp [gemini_prompt, String.data_append]
  · refine ⟨"\n        Based on the following document content, please answer the question.\n        \n        Document content:\n        "
        ++ content ++ "\n        \n        Question: ",
      "\n        \n        Please provide a concise and accurate answer based only on the information provided in the document.\n        ",
      ?_⟩
    apply String.ext
    simp [gemini_prompt, String.data_append]

/-- C5: when the partitioning invocation completes without raising but the
expected output artifact is absent, the extracted content is `""` and ingestion
nevertheless succeeds, inserting a record with empty content into the store. -/
theorem C5_missing_artifact_empty_content (db : DocumentsDb)
    (file_id filename : String) (fs : String → Option (Except String String))
    (hfs : fs (output_file_path
        (os_path_join UPLOAD_DIRECTORY (file_id ++ "_" ++ filename))) = none) :
    upload_document db file_id filename (.ok ()) (.ok ()) fs
      = (.ok { message := "Document uploaded and processed successfully",
               document_id := file_id },
         dictSet db file_id
           { file_name := filename,
             file_path := os_path_join UPLOAD_DIRECTORY (file_id ++ "_" ++ filename),
             content := "" }) := by
  simp [upload_document, process_document_with_unstructured, hfs]

theorem C5_witness :
    (fun _ => (none : Option (Except String String)))
        (output_file_path (os_path_join UPLOAD_DIRECTORY ("d1" ++ "_" ++ "empty.pdf")))
        = none
      ∧ upload_document [] "d1" "empty.pdf" (.ok ()) (.ok ()) (fun _ => none)
        = (.ok { message := "Document uploaded and processed successfully",
                 document_id := "d1" },
           dictSet [] "d1"
             { file_name := "empty.pdf",
               file_path := os_path_join UPLOAD_DIRECTORY ("d1" ++ "_" ++ "empty.pdf"),
               content := "" }) :=
  ⟨rfl, C5_missing_artifact_empty_content [] "d1" "empty.pdf" (fun _ => none) rfl⟩

theorem ask_question_found_not_notFound (gemini : String → Except String String)
    (db : DocumentsDb) (q : DocumentQuery) (record : DocRecord)
    (h : dictGet db q.document_id = some record) :
    (ask_question gemini db q).1 ≠ .error .notFound := by
  rcases hg : query_document_with_gemini gemini record.content q.query with ⟨res, calls⟩
  cases res with
  | ok r => simp [ask_question, h, hg]
  | error e => simp [ask_question, h, hg]

/-- C6: within one process lifetime, uploads whose generated uuid oracles are
distinct (the practical guarantee of `uuid.uuid4()`) return distinct
document_id values when both succeed; and the store keeps exactly one record
per key — assignment under a dict preserves key uniqueness, so an id maps to
exactly one record and an issued id is never bound to a second record. -/
theorem C6_distinct_ids_unique_keys (db : DocumentsDb) (id1 n1 id2 n2 : String)
    (w1 run1 w2 run2 : Except String Unit)
    (fs1 fs2 : String → Option (Except String String))
    (resp1 resp2 : UploadResponse)
    (hne : id1 ≠ id2)
    (h1 : (upload_document db id1 n1 w1 run1 fs1).1 = .ok resp1)
    (h2 : (upload_document (upload_document db id1 n1 w1 run1 fs1).2
        id2 n2 w2 run2 fs2).1 = .ok resp2) :
    resp1.document_id ≠ resp2.document_id
      ∧ ((dictKeys db).Nodup
          → (dictKeys (upload_document (upload_document db id1 n1 w1 run1 fs1).2
              id2 n2 w2 run2 fs2).2).Nodup) := by
  have e1 := (upload_document_ok db id1 n1 w1 run1 fs1 resp1 h1).1
  have e2 := (upload_document_ok _ id2 n2 w2 run2 fs2 resp2 h2).1
  constructor
  · rw [e1, e2]
    simpa using hne
  · intro hnd
    have s1 : (dictKeys (upload_document db id1 n1 w1 run1 fs1).2).Nodup := by
      rcases upload_document_db_cases db id1 n1 w1 run1 fs1 with hc | ⟨c, hc⟩
      · rw [hc]; exact hnd
      · rw [hc]; exact dictKeys_dictSet_nodup db id1 _ hnd
    rcases upload_document_db_cases (upload_document db id1 n1 w1 run1 fs1).2
        id2 n2 w2 run2 fs2 with hc | ⟨c, hc⟩
    · rw [hc]; exact s1
    · rw [hc]; exact dictKeys_dictSet_nodup _ id2 _ s1

theorem C6_witness :
    ("a" : String) ≠ "b"
      ∧ (upload_document [] "a" "f1" (.ok ()) (.ok ()) (fun _ => none)).1
        = .ok { message := "Document uploaded and processed successfully",
                document_id := "a" }
      ∧ (upload_document (upload_document [] "a" "f1" (.ok ()) (.ok ()) (fun _ => none)).2
          "b" "f2" (.ok ()) (.ok ()) (fun _ => none)).1
        = .ok { message := "Document uploaded and processed successfully",
                document_id := "b" }
      ∧ (({ message := "Document uploaded and processed successfully",
            document_id := "a" } : UploadResponse).document_id
            ≠ ({ message := "Document uploaded and processed successfully",
                 document_id := "b" } : UploadResponse).document_id
          ∧ ((dictKeys ([] : DocumentsDb)).Nodup
              → (dictKeys (upload_document
                  (upload_document [] "a" "f1" (.ok ()) (.ok ()) (fun _ => none)).2
                  "b" "f2" (.ok ()) (.ok ()) (fun _ => none)).2).Nodup)) :=
  ⟨by decide, rfl, rfl,
    C6_distinct_ids_unique_keys [] "a" "f1" "b" "f2" (.ok ()) (.ok ()) (.ok ()) (.ok ())
      (fun _ => none) (fun _ => none) _ _ (by decide) rfl rfl⟩

/-- C7: the listing produces exactly one (document identifier, file name) pair
per store record — same length, and the i-th listing entry is built from the
i-th store record — in the store's iteration order; and iteration order is
insertion order, since assigning a fresh key appends the binding at the end. -/
theorem C7_listing_matches_store (db : DocumentsDb) (i : Nat) (k : String)
    (v : DocRecord) :
    (list_documents db).length = db.length
      ∧ (list_documents db).get? i
        = (db.get? i).map (fun p => { document_id := p.1, file_name := p.2.file_name })
      ∧ (dictGet db k = none → dictSet db k v = db ++ [(k, v)]) := by
  refine ⟨by simp [list_documents], ?_, dictSet_fresh db k v⟩
  simp [list_documents]

theorem C7_witness :
    (list_documents
        ([("a", { file_name := "f1", file_path := "p1", content := "c1" }),
          ("b", { file_name := "f2", file_path := "p2", content := "c2" })]
          : DocumentsDb)).length
      = ([("a", { file_name := "f1", file_path := "p1", content := "c1" }),
          ("b", { file_name := "f2", file_path := "p2", content := "c2" })]
          : DocumentsDb).length
      ∧ (list_documents
          ([("a", { file_name := "f1", file_path := "p1", content := "c1" }),
            ("b", { file_name := "f2", file_path := "p2", content := "c2" })]
            : DocumentsDb)).get? 1
        = (([("a", { file_name := "f1", file_path := "p1", content := "c1" }),
            ("b", { file_name := "f2", file_path := "p2", content := "c2" })]
            : DocumentsDb).get? 1).map
            (fun p => { document_id := p.1, file_name := p.2.file_name })
      ∧ dictSet
          ([("a", { file_name := "f1", file_path := "p1", content := "c1" }),
            ("b", { file_name := "f2", file_path := "p2", content := "c2" })]
            : DocumentsDb) "c"
          { file_name := "f3", file_path := "p3", content := "c3" }
        = ([("a", { file_name := "f1", file_path := "p1", content := "c1" }),
            ("b", { file_name := "f2", file_path := "p2", content := "c2" })]
            : DocumentsDb)
          ++ [("c", { file_name := "f3", file_path := "p3", content := "c3" })] := by
  have h := C7_listing_matches_store
    ([("a", { file_name := "f1", file_path := "p1", content := "c1" }),
      ("b", { file_name := "f2", file_path := "p2", content := "c2" })] : DocumentsDb)
    1 "c" { file_name := "f3", file_path := "p3", content := "c3" }
  exact ⟨h.1, h.2.1, h.2.2 rfl⟩

/-- C8, counterexample: with generated id "x" and original file name "a/b"
(file names are advisory and unsanitized), the artifact is looked up at
"./output/b.json", not under the name `id_n` + ".json" — the base name of the
uploaded file is not `id_n` when the file name contains a path separator. -/
theorem C8_counterexample :
    os_path_basename (os_path_join UPLOAD_DIRECTORY ("x" ++ "_" ++ "a/b"))
        ≠ "x" ++ "_" ++ "a/b"
      ∧ output_file_path (os_path_join UPLOAD_DIRECTORY ("x" ++ "_" ++ "a/b"))
        = "./output/b.json"
      ∧ os_path_join OUTPUT_DIRECTORY ("x" ++ "_" ++ "a/b") ++ ".json"
        = "./output/x_a/b.json" :=
  ⟨by decide, by decide, by decide⟩

/-- C8, amended: for every generated id and original file name free of path
separators (so that the combined name has a well-defined base name), the raw
bytes are persisted at `UPLOAD_DIRECTORY/{id}_{n}` and the partitioning output
artifact is looked up at `OUTPUT_DIRECTORY/{id}_{n}.json`; the two directories
are the fixed module constants "./uploaded_documents" and "./output". -/
theorem C8_path_convention (file_id filename : String)
    (hb : startsWithSlash (file_id ++ "_" ++ filename) = false)
    (hid : '/' ∉ file_id.data) (hn : '/' ∉ filename.data) :
    os_path_join UPLOAD_DIRECTORY (file_id ++ "_" ++ filename)
        = UPLOAD_DIRECTORY ++ "/" ++ (file_id ++ "_" ++ filename)
      ∧ output_file_path (os_path_join UPLOAD_DIRECTORY (file_id ++ "_" ++ filename))
        = OUTPUT_DIRECTORY ++ "/" ++ (file_id ++ "_" ++ filename) ++ ".json" := by
  have hnb : '/' ∉ (file_id ++ "_" ++ filename).data := by
    intro hmem
    rw [String.data_append, String.data_append] at hmem
    rcases List.mem_append.1 hmem with h2 | h2
    · rcases List.mem_append.1 h2 with h3 | h3
      · exact hid h3
      · exact absurd h3 (by decide)
    · exact hn h2
  have hj : os_path_join UPLOAD_DIRECTORY (file_id ++ "_" ++ filename)
      = UPLOAD_DIRECTORY ++ "/" ++ (file_id ++ "_" ++ filename) :=
    os_path_join_sep _ _ (by decide) (by decide) hb
  refine ⟨hj, ?_⟩
  have hbase : os_path_basename (UPLOAD_DIRECTORY ++ "/" ++ (file_id ++ "_" ++ filename))
      = file_id ++ "_" ++ filename := os_path_basename_after_dir _ _ hnb
  simp only [output_file_path]
  rw [hj, hbase, os_path_join_sep _ _ (by decide) (by decide) hb]

theorem C8_witness :
    startsWithSlash ("d2" ++ "_" ++ "r.pdf") = false
      ∧ '/' ∉ ("d2" : String).data
      ∧ '/' ∉ ("r.pdf" : String).data
      ∧ (os_path_join UPLOAD_DIRECTORY ("d2" ++ "_" ++ "r.pdf")
            = UPLOAD_DIRECTORY ++ "/" ++ ("d2" ++ "_" ++ "r.pdf")
          ∧ output_file_path (os_path_join UPLOAD_DIRECTORY ("d2" ++ "_" ++ "r.pdf"))
            = OUTPUT_DIRECTORY ++ "/" ++ ("d2" ++ "_" ++ "r.pdf") ++ ".json") :=
  ⟨by decide, by decide, by decide,
    C8_path_convention "d2" "r.pdf" (by decide) (by decide) (by decide)⟩

/-- C9: a stored record is never mutated or deleted — `/ask` leaves the store
exactly as it was whether it succeeds or fails, the listing endpoint leaves it
unchanged, a failed upload leaves it unchanged, and a (fresh-id) upload
preserves every existing binding; the only store modification is the insertion
performed by a successful ingestion. -/
theorem C9_read_ops_preserve_store (gemini : String → Except String String)
    (db : DocumentsDb) (q : DocumentQuery) (file_id filename : String)
    (w run : Except String Unit) (fs : String → Option (Except String String)) :
    (ask_question gemini db q).2.1 = db
      ∧ (list_documents_endpoint db).2 = db
      ∧ (∀ e, (upload_document db file_id filename w run fs).1 = .error e
          → (upload_document db file_id filename w run fs).2 = db)
      ∧ (dictGet db file_id = none
          → ∀ k r, dictGet db k = some r
          → dictGet (upload_document db file_id filename w run fs).2 k = some r) := by
  refine ⟨?_, rfl, fun e he => upload_document_error db file_id filename w run fs e he, ?_⟩
  · rcases h : dictGet db q.document_id with _ | record
    · simp [ask_question, h]
    · rcases hg : query_document_with_gemini gemini record.content q.query with ⟨res, calls⟩
      cases res with
      | ok r => simp [ask_question, h, hg]
      | error e2 => simp [ask_question, h, hg]
  · intro hfresh k r hk
    rcases upload_document_db_cases db file_id filename w run fs with hc | ⟨c, hc⟩
    · rw [hc]
      exact hk
    · have hne : k ≠ file_id := by
        intro hkk
        rw [hkk, hfresh] at hk
        exact Option.noConfusion hk
      rw [hc, dictGet_dictSet_ne db file_id k _ hne]
      exact hk

theorem C9_witness :
    (ask_question (fun _ => .ok "ans")
        [("a", { file_name := "f", file_path := "p", content := "c" })]
        { document_id := "a", query := "q" }).2.1
      = [("a", { file_name := "f", file_path := "p", content := "c" })]
      ∧ (list_documents_endpoint
          [("a", { file_name := "f", file_path := "p", content := "c" })]).2
        = [("a", { file_name := "f", file_path := "p", content := "c" })]
      ∧ (upload_document [("a", { file_name := "f", file_path := "p", content := "c" })]
          "b" "g" (.error "boom") (.ok ()) (fun _ => none)).2
        = [("a", { file_name := "f", file_path := "p", content := "c" })]
      ∧ dictGet (upload_document
          [("a", { file_name := "f", file_path := "p", content := "c" })]
          "b" "g" (.error "boom") (.ok ()) (fun _ => none)).2 "a"
        = some { file_name := "f", file_path := "p", content := "c" } := by
  have h := C9_read_ops_preserve_store (fun _ => .ok "ans")
    [("a", { file_name := "f", file_path := "p", content := "c" })]
    { document_id := "a", query := "q" } "b" "g" (.error "boom") (.ok ()) (fun _ => none)
  exact ⟨h.1, h.2.1, h.2.2.1 "boom" rfl, h.2.2.2 rfl "a" _ rfl⟩

/-- C10: a successful `/upload` returns exactly the key under which the record
was inserted — an immediate lookup with that id finds a record carrying the
upload's original file name, an immediate `/ask` with that id does not yield
"not found" (for any model oracle), and the listing contains the pair of that
id and the original file name. -/
theorem C10_upload_id_retrievable (gemini : String → Except String String)
    (db : DocumentsDb) (file_id filename question : String)
    (w run : Except String Unit) (fs : String → Option (Except String String))
    (resp : UploadResponse)
    (hok : (upload_document db file_id filename w run fs).1 = .ok resp) :
    resp.document_id = file_id
      ∧ (∃ r, dictGet (upload_document db file_id filename w run fs).2 file_id = some r
          ∧ r.file_name = filename)
      ∧ (ask_question gemini (upload_document db file_id filename w run fs).2
          { document_id := file_id, query := question }).1 ≠ .error .notFound
      ∧ { document_id := file_id, file_name := filename }
          ∈ list_documents (upload_document db file_id filename w run fs).2 := by
  obtain ⟨hresp, c, hdb⟩ := upload_document_ok db file_id filename w run fs resp hok
  have hget : dictGet (upload_document db file_id filename w run fs).2 file_id
      = some { file_name := filename,
               file_path := os_path_join UPLOAD_DIRECTORY (file_id ++ "_" ++ filename),
               content := c } := by
    rw [hdb]
    exact dictGet_dictSet_self db file_id _
  refine ⟨by rw [hresp], ⟨_, hget, rfl⟩, ?_, ?_⟩
  · exact ask_question_found_not_notFound gemini _ _ _ hget
  · have hmem := dictGet_mem _ file_id _ hget
    exact List.mem_map.2 ⟨_, hmem, rfl⟩

theorem C10_witness :
    (upload_document [] "u1" "f.pdf" (.ok ()) (.ok ()) (fun _ => some (.ok "text"))).1
        = .ok { message := "Document uploaded and processed successfully",
                document_id := "u1" }
      ∧ (({ message := "Document uploaded and processed successfully",
            document_id := "u1" } : UploadResponse).document_id = "u1"
          ∧ (∃ r, dictGet (upload_document [] "u1" "f.pdf" (.ok ()) (.ok ())
                (fun _ => some (.ok "text"))).2 "u1" = some r
              ∧ r.file_name = "f.pdf")
          ∧ (ask_question (fun _ => .ok "ans")
              (upload_document [] "u1" "f.pdf" (.ok ()) (.ok ())
                (fun _ => some (.ok "text"))).2
              { document_id := "u1", query := "q" }).1 ≠ .error .notFound
          ∧ { document_id := "u1", file_name := "f.pdf" }
              ∈ list_documents (upload_document [] "u1" "f.pdf" (.ok ()) (.ok ())
                  (fun _ => some (.ok "text"))).2) :=
  ⟨rfl,
    C10_upload_id_retrievable (fun _ => .ok "ans") [] "u1" "f.pdf" "q" (.ok ()) (.ok ())
      (fun _ => some (.ok "text"))
      { message := "Document uploaded and processed successfully", document_id := "u1" }
      rfl⟩

end ChatPDF
